import Mathlib

/-!
Shallow embedding of the llama-rs checkpoint loader (src/main.rs) and proofs
about its record parsing, validation, shard reconstruction and registry
construction.  Machine integers (i32/usize) are modelled as `Int`; Rust's
truncating integer division `/` is `Int.tdiv`.  Rust panics
(`unreachable!`, index out of bounds, division by zero, failed `assert_eq!`)
are modelled by the dedicated `Outcome.panic` result, distinct from the
recoverable `anyhow::bail!` error channel modelled by `Outcome.err`.
-/

namespace LlamaRs

/-- Error taxonomy: one constructor per `anyhow::bail!` site of
`LlamaModel::load`, plus I/O failures propagated with `?`. -/
inductive LoadErr where
  /-- line 119: "Invalid model file (bad magic)" -/
  | badMagic : LoadErr
  /-- line 164: "Invalid value for hparams.f16_" -/
  | invalidF16 (v : Int) : LoadErr
  /-- line 367: "Unknown tensor in model_file" -/
  | unknownTensor (name : String) : LoadErr
  /-- lines 391/395/401/406/410/435/455: "Tensor has the wrong size in model file" -/
  | wrongSize (name : String) : LoadErr
  /-- line 428: "Invalid ftype in model file" -/
  | invalidFtype (v : Int) : LoadErr
  /-- a failed read/seek propagated with the `?` operator -/
  | ioError : LoadErr
deriving DecidableEq, Repr

/-- Result of running a fragment of the loader: normal value, recoverable
error (`anyhow::bail!` / `?`), or a Rust panic (which aborts the process). -/
inductive Outcome (α : Type) where
  | ok (a : α) : Outcome α
  | err (e : LoadErr) : Outcome α
  | panic : Outcome α
deriving DecidableEq, Repr

/-- `i32::from_le_bytes`: little-endian two's-complement decode of 4 bytes. -/
def leI32 (b0 b1 b2 b3 : Nat) : Int :=
  let u : Nat := b0 + 256 * b1 + 65536 * b2 + 16777216 * b3
  if u < 2147483648 then (u : Int) else (u : Int) - 4294967296

/-- `read_int` (lines 99-105): read 4 bytes from the stream and decode a
little-endian i32; a short stream is an I/O error. -/
def readI32 : List Nat → Outcome (Int × List Nat)
  | b0 :: b1 :: b2 :: b3 :: rest => .ok (leI32 b0 b1 b2 b3, rest)
  | _ => .err .ioError

/-- `llama_n_parts` (lines 75-83).  The wildcard arm is
`unreachable!("Invalid size for N_PARTS")`, a panic. -/
def llama_n_parts (size : Int) : Outcome Int :=
  if size = 4096 then .ok 1
  else if size = 5120 then .ok 2
  else if size = 6656 then .ok 3
  else if size = 8192 then .ok 8
  else .panic

/-- `n_ff` (lines 140-141):
`((2 * (4 * n_embd) / 3 + n_mult - 1) / n_mult) * n_mult` in i32 arithmetic;
Rust `/` truncates toward zero, i.e. `Int.tdiv`. -/
def n_ff_val (n_embd n_mult : Int) : Int :=
  Int.tdiv (Int.tdiv (2 * (4 * n_embd)) 3 + n_mult - 1) n_mult * n_mult

/-- Decimal digit to character, as Rust's `format!` renders each digit. -/
def digitCh : Nat → Char
  | 0 => '0' | 1 => '1' | 2 => '2' | 3 => '3' | 4 => '4'
  | 5 => '5' | 6 => '6' | 7 => '7' | 8 => '8' | _ => '9'

/-- Decimal rendering of a natural number as a character list (the output of
Rust's `format!` for an in-range nonnegative integer). -/
def decChars (n : Nat) : List Char :=
  if _h : n < 10 then [digitCh n]
  else decChars (n / 10) ++ [digitCh (n % 10)]
decreasing_by exact Nat.div_lt_self (by omega) (by omega)

/-- Decimal rendering as a `String`. -/
def natStr (n : Nat) : String := String.mk (decChars n)

/-- Verification helper, not part of the program: parse a decimal character
list back into a number (used to show `decChars` is injective). -/
def parseDec (l : List Char) : Nat :=
  l.foldl (fun a c => a * 10 + (c.toNat - 48)) 0

/-- Helper for substring search: does `hay` start with `pat`? -/
def charsLead : List Char → List Char → Bool
  | [], _ => true
  | _ :: _, [] => false
  | p :: ps, h :: hs => p == h && charsLead ps hs

/-- Helper for substring search: does `hay` contain `pat` anywhere? -/
def charsHas : List Char → List Char → Bool
  | [], pat => pat.isEmpty
  | h :: t, pat => charsLead pat (h :: t) || charsHas t pat

/-- Rust `str::contains` with a string pattern (substring containment). -/
def strContains (hay pat : String) : Bool := charsHas hay.data pat.data

/-- `split_type` (lines 370-387): classify the tensor's split policy from
its name. -/
def split_type (tensor_name : String) : Int :=
  if strContains tensor_name "tok_embeddings" then 0
  else if strContains tensor_name "layers" then
    if strContains tensor_name "attention.wo.weight" then 0
    else if strContains tensor_name "feed_forward.w2.weight" then 0
    else 1
  else if strContains tensor_name "output" then 1
  else 0

/-- A ggml element type: per-element byte size and block size.
Modelled from the spec: the element-size/block arithmetic is owned by the
external ggml library (src/ggml.rs is not part of the given source); sizes
follow ggml's fixed values for F32, F16, Q4_0 and Q4_1. -/
structure GType where
  tsize : Int
  blck : Int
deriving DecidableEq, Repr

/-- `GGML_TYPE_F32`: 4 bytes per element, block size 1. -/
def gF32 : GType := ⟨4, 1⟩
/-- `GGML_TYPE_F16`: 2 bytes per element, block size 1. -/
def gF16 : GType := ⟨2, 1⟩
/-- `GGML_TYPE_Q4_0`: 20-byte blocks of 32 elements. -/
def gQ4_0 : GType := ⟨20, 32⟩
/-- `GGML_TYPE_Q4_1`: 24-byte blocks of 32 elements. -/
def gQ4_1 : GType := ⟨24, 32⟩

/-- A `GgmlTensor` handle: an identifier of the underlying storage inside
the arena plus the tensor's type and up-to-2-dimensional shape.
Modelled from the spec: tensor handles are non-owning views; `id` names the
backing storage slot chosen at allocation time. -/
structure GgmlTensor where
  id : Nat
  typ : GType
  ne0 : Int
  ne1 : Int
deriving DecidableEq, Repr

/-- `GgmlTensor::share` — Modelled from the spec: src/ggml.rs is absent from
the given source; per the spec, sharing hands out another handle to the
identical underlying storage, never a copy. -/
def GgmlTensor.share (t : GgmlTensor) : GgmlTensor := t

/-- `tensor.nelements()` — Modelled from the spec: ggml's element count of an
up-to-2-dimensional tensor is the product of its extents. -/
def GgmlTensor.nelements (t : GgmlTensor) : Int := t.ne0 * t.ne1

/-- `tensor.get_nb()[1]` — Modelled from the spec: ggml's row byte stride is
`ne[0] / block_size * type_size`. -/
def GgmlTensor.nb1 (t : GgmlTensor) : Int :=
  Int.tdiv t.ne0 t.typ.blck * t.typ.tsize

/-- `tensor.nbytes()` — Modelled from the spec: ggml's byte footprint of an
up-to-2-dimensional tensor is `ne[1] * nb[1]`. -/
def GgmlTensor.nbytes (t : GgmlTensor) : Int := t.ne1 * t.nb1

/-- `row_size` as recomputed by the loader (lines 460-462 and 484-486):
`(tensor.get_ne()[0] / ggml_blck_size(type)) * ggml_type_size(type)`. -/
def GgmlTensor.rowSize (t : GgmlTensor) : Int :=
  Int.tdiv t.ne0 t.typ.blck * t.typ.tsize

/-- `bpe` (lines 423-429): per-element byte size selected from the record's
declared `ftype`; an out-of-range value is a recoverable error. -/
def bpeOf (ftype : Int) : Outcome Int :=
  if ftype = 0 then .ok gF32.tsize
  else if ftype = 1 then .ok gF16.tsize
  else if ftype = 2 then .ok gQ4_0.tsize
  else if ftype = 3 then .ok gQ4_1.tsize
  else .err (.invalidFtype ftype)

/-- The write requests issued by the `split_type == 0` copy loop
(lines 458-481): one write per `i1 in 0..ne[1]`, each of `len` bytes at
byte offset `i1 * row_size + colOff`.  Each pair is (destination byte
offset, byte length), listed in issue order. -/
def split0Writes (row_size colOff len : Int) : Nat → Int → List (Int × Int)
  | 0, _ => []
  | k + 1, i1 => (i1 * row_size + colOff, len) :: split0Writes row_size colOff len k (i1 + 1)

/-- The write requests issued by the `split_type == 1` copy loop
(lines 482-498): one write per `i1 in 0..ne[1]`, each of a full
`row_size` bytes at byte offset `(i1 + part_id * np1) * row_size`. -/
def split1Writes (row_size part_id np1 : Int) : Nat → Int → List (Int × Int)
  | 0, _ => []
  | k + 1, i1 =>
    ((i1 + part_id * np1) * row_size, row_size) :: split1Writes row_size part_id np1 k (i1 + 1)

/-- Total bytes read from the stream by a list of write requests. -/
def sumLens (ws : List (Int × Int)) : Int := (ws.map Prod.snd).sum

/-- Overwrite `dest` starting at byte offset `off` with the bytes of `src`. -/
def writeAt (dest : List Int) (off : Nat) (src : List Int) : List Int :=
  (dest.take off) ++ src ++ dest.drop (off + src.length)

/-- Apply a list of write requests to a destination byte buffer, taking the
source bytes for consecutive requests from consecutive stream positions. -/
def applyWrites (dest src : List Int) : List (Int × Int) → List Int
  | [] => dest
  | (off, len) :: ws =>
    applyWrites (writeAt dest off.toNat (src.take len.toNat)) (src.drop len.toNat) ws

/-- Processing of one tensor record after its name has been resolved against
the registry (lines 370-501): split-policy classification, element-count
validation, per-axis shape validation, `bpe` selection, byte-size validation,
then the copy or skip.  The result is the list of (destination byte offset,
byte length) write requests issued against the tensor's storage, in order,
together with the number of bytes by which the shard stream advances
(reads plus seeks).  A recoverable `bail!` yields `err` with no writes; the
`assert_eq!` of line 464 is a panic when it fails. -/
def processTensorRecord (t : GgmlTensor) (tensor_name : String) (n_dims : Int)
    (ne : Int × Int) (nelements : Int) (ftype : Int) (part_id n_parts : Int) :
    Outcome (List (Int × Int) × Int) :=
  -- lines 389-397: element-count validation
  if (if n_dims = 1 then t.nelements ≠ nelements
      else Int.tdiv t.nelements n_parts ≠ nelements) then
    .err (.wrongSize tensor_name)
  -- lines 399-413: per-axis validation (the multi-dimension case depends on
  -- the split policy of lines 370-387)
  else if (if n_dims = 1 then t.ne0 ≠ ne.1 ∨ t.ne1 ≠ ne.2
           else if split_type tensor_name = 0 then
             Int.tdiv t.ne0 n_parts ≠ ne.1 ∨ t.ne1 ≠ ne.2
           else t.ne0 ≠ ne.1 ∨ Int.tdiv t.ne1 n_parts ≠ ne.2) then
    .err (.wrongSize tensor_name)
  else
    -- lines 423-429: bpe from the record's declared ftype
    match bpeOf ftype with
    | .err e => .err e
    | .panic => .panic
    | .ok bpe =>
      if n_dims = 1 ∨ n_parts = 1 then
        -- lines 431-450: unsplit case
        if Int.tdiv (nelements * bpe) t.typ.blck ≠ t.nbytes then
          .err (.wrongSize tensor_name)
        else if part_id = 0 then .ok ([(0, t.nbytes)], t.nbytes)
        else .ok ([], t.nbytes)
      else
        -- lines 452-501: split case
        if Int.tdiv (nelements * bpe) t.typ.blck ≠ Int.tdiv t.nbytes n_parts then
          .err (.wrongSize tensor_name)
        else if split_type tensor_name = 0 then
          let np0 := ne.1
          let row_size := t.rowSize
          -- line 464: assert_eq!(row_size, tensor.get_nb()[1])
          if row_size ≠ t.nb1 then .panic
          else
            let ws := split0Writes row_size
              (Int.tdiv (part_id * np0) t.typ.blck * t.typ.tsize)
              (Int.tdiv row_size n_parts) ne.2.toNat 0
            .ok (ws, sumLens ws)
        else
          let np1 := ne.2
          let row_size := t.rowSize
          let ws := split1Writes row_size part_id np1 ne.2.toNat 0
          .ok (ws, sumLens ws)

/-- The per-layer weight struct `LlamaLayer` (lines 31-46), with handles in
place of owning tensors. -/
structure LlamaLayerH where
  attention_norm : GgmlTensor
  wq : GgmlTensor
  wk : GgmlTensor
  wv : GgmlTensor
  wo : GgmlTensor
  ffn_norm : GgmlTensor
  w1 : GgmlTensor
  w2 : GgmlTensor
  w3 : GgmlTensor
deriving DecidableEq, Repr

/-- The model value built at lines 235-314: global tensors, the per-layer
structs, the two memory tensors and the name-keyed registry, kept in
insertion order with pairwise-distinct keys. -/
structure LlamaModelH where
  tok_embeddings : GgmlTensor
  norm : GgmlTensor
  output : GgmlTensor
  layers : List LlamaLayerH
  memory_k : GgmlTensor
  memory_v : GgmlTensor
  tensors : List (String × GgmlTensor)
deriving DecidableEq, Repr

/-- `format!("layers.{i}.<suffix>")` as used by lines 260-286: the layer
index rendered in decimal between the fixed pieces. -/
def layerName (i : Nat) (suffix : String) : String :=
  "layers." ++ natStr i ++ suffix

/-- One layer's allocations (lines 248-258): nine tensors allocated in
declaration order; `base` is the next free storage id of the arena
allocator. -/
def mkLayer (wtype : GType) (n_embd n_ff : Int) (base : Nat) : LlamaLayerH :=
  ⟨⟨base, gF32, n_embd, 1⟩,
   ⟨base + 1, wtype, n_embd, n_embd⟩,
   ⟨base + 2, wtype, n_embd, n_embd⟩,
   ⟨base + 3, wtype, n_embd, n_embd⟩,
   ⟨base + 4, wtype, n_embd, n_embd⟩,
   ⟨base + 5, gF32, n_embd, 1⟩,
   ⟨base + 6, wtype, n_embd, n_ff⟩,
   ⟨base + 7, wtype, n_ff, n_embd⟩,
   ⟨base + 8, wtype, n_embd, n_ff⟩⟩

/-- The nine registry insertions of one layer (lines 260-286), in insertion
order, each storing a `share()` of the corresponding struct field. -/
def layerEntries (i : Nat) (l : LlamaLayerH) : List (String × GgmlTensor) :=
  [(layerName i ".attention_norm.weight", l.attention_norm.share),
   (layerName i ".attention.wq.weight", l.wq.share),
   (layerName i ".attention.wk.weight", l.wk.share),
   (layerName i ".attention.wv.weight", l.wv.share),
   (layerName i ".attention.wo.weight", l.wo.share),
   (layerName i ".ffn_norm.weight", l.ffn_norm.share),
   (layerName i ".feed_forward.w1.weight", l.w1.share),
   (layerName i ".feed_forward.w2.weight", l.w2.share),
   (layerName i ".feed_forward.w3.weight", l.w3.share)]

/-- The layer loop of lines 247-289, building layer structs and registry
entries for indices `i, i+1, ...` (`count` of them), with `base` the next
free storage id. -/
def buildLayers (wtype : GType) (n_embd n_ff : Int) :
    Nat → Nat → Nat → List LlamaLayerH × List (String × GgmlTensor)
  | _, 0, _ => ([], [])
  | i, count + 1, base =>
    let l := mkLayer wtype n_embd n_ff base
    let rest := buildLayers wtype n_embd n_ff (i + 1) count (base + 9)
    (l :: rest.1, layerEntries i l ++ rest.2)

/-- The model construction of lines 235-314: the three global tensors
(storage ids 0,1,2), the layer loop, and the two memory tensors; the
registry receives `share()`s of the very handles stored in the struct. -/
def buildModel (wtype : GType) (n_embd n_ff n_vocab n_layer n_ctx : Int) :
    LlamaModelH :=
  let tok_embeddings : GgmlTensor := ⟨0, wtype, n_embd, n_vocab⟩
  let norm : GgmlTensor := ⟨1, gF32, n_embd, 1⟩
  let output : GgmlTensor := ⟨2, wtype, n_embd, n_vocab⟩
  let lrs := buildLayers wtype n_embd n_ff 0 n_layer.toNat 3
  let n_mem := n_layer * n_ctx
  let n_elements := n_embd * n_mem
  ⟨tok_embeddings, norm, output, lrs.1,
   ⟨3 + 9 * n_layer.toNat, gF32, n_elements, 1⟩,
   ⟨4 + 9 * n_layer.toNat, gF32, n_elements, 1⟩,
   [("tok_embeddings.weight", tok_embeddings.share),
    ("norm.weight", norm.share),
    ("output.weight", output.share)] ++ lrs.2⟩

/-- Progress record of a run of the load prelude: how many bytes were read
from the primary file, how many vocabulary entries were stored, whether the
ggml arena was initialized, and how many tensors were allocated in it. -/
structure LoadTrace where
  bytesRead : Nat
  vocabStored : Nat
  arenaInit : Nat
  tensorAllocs : Nat
deriving DecidableEq, Repr

/-- The vocabulary loop of lines 149-154: `n_vocab` records of a 4-byte
length followed by that many bytes (kept as raw bytes; UTF-8 decoding is
owned by the standard library and abstracted away).  Returns the entries,
the remaining stream and the number of bytes consumed, or the error with
the progress made so far. -/
def readVocab : List Nat → Nat → List (List Nat) → Nat →
    (Outcome (List (List Nat) × List Nat)) × Nat × Nat
  | rest, 0, acc, bytes => (.ok (acc.reverse, rest), bytes, acc.length)
  | rest, k + 1, acc, bytes =>
    match readI32 rest with
    | .err e => (.err e, bytes, acc.length)
    | .panic => (.panic, bytes, acc.length)
    | .ok (len, rest') =>
      if len < 0 then (.err .ioError, bytes + 4, acc.length)
      else if rest'.length < len.toNat then (.err .ioError, bytes + 4, acc.length)
      else
        readVocab (rest'.drop len.toNat) k (rest'.take len.toNat :: acc)
          (bytes + 4 + len.toNat)

/-- Everything the loader retains after the prelude: hyperparameters,
feed-forward width, part count, vocabulary, weight type, the built model and
the stream offset at which weight records begin. -/
structure PreState where
  n_vocab : Int
  n_ctx : Int
  n_embd : Int
  n_mult : Int
  n_head : Int
  n_layer : Int
  n_rot : Int
  f16_ : Int
  n_ff : Int
  n_parts : Int
  vocab : List (List Nat)
  wtype : GType
  model : LlamaModelH
  file_offset : Nat
deriving Repr

/-- The load prelude (lines 115-319): magic check, hyperparameter reads,
`n_ff` and `n_parts` computation, vocabulary load, weight-type selection,
arena initialization and model/registry construction, stopping just before
the part loop.  The second component traces the I/O and allocations
performed up to the point the prelude returned (also on failure).  Rust's
i32 division panics on a zero divisor, hence the explicit `n_mult = 0`
panic for the `n_ff` expression. -/
def loadPrelude (input : List Nat) (n_ctx : Int) :
    Outcome PreState × LoadTrace :=
  match readI32 input with
  | .err e => (.err e, ⟨0, 0, 0, 0⟩)
  | .panic => (.panic, ⟨0, 0, 0, 0⟩)
  | .ok (magic, r1) =>
    if magic ≠ 1734831468 then (.err .badMagic, ⟨4, 0, 0, 0⟩)
    else
      match readI32 r1 with
      | .err e => (.err e, ⟨4, 0, 0, 0⟩)
      | .panic => (.panic, ⟨4, 0, 0, 0⟩)
      | .ok (n_vocab, r2) =>
        match readI32 r2 with
        | .err e => (.err e, ⟨8, 0, 0, 0⟩)
        | .panic => (.panic, ⟨8, 0, 0, 0⟩)
        | .ok (n_embd, r3) =>
          match readI32 r3 with
          | .err e => (.err e, ⟨12, 0, 0, 0⟩)
          | .panic => (.panic, ⟨12, 0, 0, 0⟩)
          | .ok (n_mult, r4) =>
            match readI32 r4 with
            | .err e => (.err e, ⟨16, 0, 0, 0⟩)
            | .panic => (.panic, ⟨16, 0, 0, 0⟩)
            | .ok (n_head, r5) =>
              match readI32 r5 with
              | .err e => (.err e, ⟨20, 0, 0, 0⟩)
              | .panic => (.panic, ⟨20, 0, 0, 0⟩)
              | .ok (n_layer, r6) =>
                match readI32 r6 with
                | .err e => (.err e, ⟨24, 0, 0, 0⟩)
                | .panic => (.panic, ⟨24, 0, 0, 0⟩)
                | .ok (n_rot, r7) =>
                  match readI32 r7 with
                  | .err e => (.err e, ⟨28, 0, 0, 0⟩)
                  | .panic => (.panic, ⟨28, 0, 0, 0⟩)
                  | .ok (f16_, r8) =>
                    -- line 140-141: n_ff (i32 division panics on divisor 0)
                    if n_mult = 0 then (.panic, ⟨32, 0, 0, 0⟩)
                    else
                      let nff := n_ff_val n_embd n_mult
                      -- line 142: n_parts (panics off the table)
                      match llama_n_parts n_embd with
                      | .err e => (.err e, ⟨32, 0, 0, 0⟩)
                      | .panic => (.panic, ⟨32, 0, 0, 0⟩)
                      | .ok n_parts =>
                        match readVocab r8 n_vocab.toNat [] 0 with
                        | (.err e, vb, vn) => (.err e, ⟨32 + vb, vn, 0, 0⟩)
                        | (.panic, vb, vn) => (.panic, ⟨32 + vb, vn, 0, 0⟩)
                        | (.ok (vocab, _r9), vb, vn) =>
                          -- lines 159-165: weight type from the f16_ flag
                          let wt : Outcome GType :=
                            if f16_ = 0 then .ok gF32
                            else if f16_ = 1 then .ok gF16
                            else if f16_ = 2 then .ok gQ4_0
                            else if f16_ = 3 then .ok gQ4_1
                            else .err (.invalidF16 f16_)
                          match wt with
                          | .err e => (.err e, ⟨32 + vb, vn, 0, 0⟩)
                          | .panic => (.panic, ⟨32 + vb, vn, 0, 0⟩)
                          | .ok wtype =>
                            -- lines 229-233: arena init, then lines 235-314:
                            -- model and registry construction
                            let model := buildModel wtype n_embd nff n_vocab n_layer n_ctx
                            (.ok ⟨n_vocab, n_ctx, n_embd, n_mult, n_head, n_layer,
                                  n_rot, f16_, nff, n_parts, vocab, wtype, model,
                                  32 + vb⟩,
                             ⟨32 + vb, vn, 1, 5 + 9 * n_layer.toNat⟩)

/-- `Path::join` for a relative component: appends a path separator and the
component (the component `".{i}"` never starts with `/`). -/
def joinPath (base comp : String) : String := base ++ "/" ++ comp

/-- `part_path` (lines 324-328): part 0 opens the primary path itself;
part `i ≥ 1` opens `path.join(format!(".{i}"))`. -/
def partPath (path : String) (i : Nat) : String :=
  if 0 < i then joinPath path ("." ++ natStr i) else path

/-- `ne[i as usize] = v` on the fixed array `[1i32, 1i32]` (line 355-359),
for the in-bounds indices. -/
def setNe (ne : Int × Int) (i : Nat) (v : Int) : Int × Int :=
  if i = 0 then (v, ne.2) else if i = 1 then (ne.1, v) else ne

/-- The shape-parsing loop of lines 355-360:
`for i in 0..n_dims { ne[i as usize] = read_int(..)?; nelements *= ne[i]; }`
over the fixed 2-element array `ne`.  Rust evaluates the right-hand side
(the read) before the indexing of the place expression, so at `i = 2` the
stream is read once more and then the out-of-bounds index panics. -/
def neLoop (r : List Nat) (n_dims : Int) (i : Nat) (ne : Int × Int)
    (nelements : Int) : Outcome ((Int × Int) × Int × List Nat) :=
  if _h : (i : Int) < n_dims then
    match readI32 r with
    | .err e => .err e
    | .panic => .panic
    | .ok (v, r') =>
      if 2 ≤ i then .panic
      else neLoop r' n_dims (i + 1) (setNe ne i v) (nelements * v)
  else .ok (ne, nelements, r)
termination_by (n_dims - i).toNat
decreasing_by omega

/-! ## Arithmetic helpers for the feed-forward rounding rule -/

lemma roundUpNat_ge (k b : Nat) (hb : 1 ≤ b) : k ≤ (k + b - 1) / b * b := by
  rcases Nat.eq_zero_or_pos k with hk | hk
  · subst hk; exact Nat.zero_le _
  · have hkb : k + b - 1 = (k - 1) + b := by omega
    rw [hkb, Nat.add_div_right _ (by omega)]
    have h3 : k - 1 < ((k - 1) / b + 1) * b :=
      (Nat.div_lt_iff_lt_mul (by omega)).mp (Nat.lt_succ_self _)
    omega

lemma roundUpNat_min (k b t : Nat) (hb : 1 ≤ b) (hdvd : b ∣ t) (hk : k ≤ t) :
    (k + b - 1) / b * b ≤ t := by
  obtain ⟨c, rfl⟩ := hdvd
  rcases Nat.eq_zero_or_pos k with hk0 | hk0
  · subst hk0
    have : (b - 1) / b = 0 := Nat.div_eq_of_lt (by omega)
    simp [this]
  · have hkb : k + b - 1 = (k - 1) + b := by omega
    rw [hkb, Nat.add_div_right _ (by omega)]
    have hcb : k - 1 < c * b := by rw [Nat.mul_comm]; omega
    have h1 : (k - 1) / b < c := (Nat.div_lt_iff_lt_mul (by omega)).mpr hcb
    calc ((k - 1) / b + 1) * b ≤ c * b := Nat.mul_le_mul_right b h1
      _ = b * c := Nat.mul_comm _ _

/-- C5: for hyperparameters with `n_embd ≥ 0` and `n_mult ≥ 1`, the computed
feed-forward width `n_ff` is exactly the smallest multiple of `n_mult` that
is at least `floor(2 * 4 * n_embd / 3)`: it is a multiple, it is at least
the floor, and it is below every other such multiple — the round-up rule
computed with exact integer arithmetic. -/
theorem c5_n_ff_smallest_multiple (n_embd n_mult : Int)
    (h0 : 0 ≤ n_embd) (h1 : 1 ≤ n_mult) :
    n_mult ∣ n_ff_val n_embd n_mult ∧
    Int.tdiv (2 * (4 * n_embd)) 3 ≤ n_ff_val n_embd n_mult ∧
    ∀ m : Int, n_mult ∣ m → Int.tdiv (2 * (4 * n_embd)) 3 ≤ m →
      n_ff_val n_embd n_mult ≤ m := by
  lift n_embd to ℕ using h0 with a
  lift n_mult to ℕ using (by omega : (0:Int) ≤ n_mult) with b
  have hb : 1 ≤ b := by exact_mod_cast h1
  have e1 : (2 * (4 * (a : Int))) = ((8 * a : Nat) : Int) := by push_cast; ring
  have e2 : Int.tdiv ((8 * a : Nat) : Int) 3 = ((8 * a / 3 : Nat) : Int) := by
    exact_mod_cast (Int.ofNat_tdiv (8 * a) 3).symm
  have e3 : n_ff_val a b = (((8 * a / 3 + b - 1) / b * b : Nat) : Int) := by
    unfold n_ff_val
    rw [e1, e2]
    have e4 : ((8 * a / 3 : Nat) : Int) + (b : Int) - 1
        = ((8 * a / 3 + b - 1 : Nat) : Int) := by omega
    rw [e4, ← Int.ofNat_tdiv]
    exact_mod_cast rfl
  rw [e1, e2, e3]
  refine ⟨?_, ?_, ?_⟩
  · exact_mod_cast Dvd.dvd.natCast (dvd_mul_left b ((8 * a / 3 + b - 1) / b))
  · exact_mod_cast roundUpNat_ge (8 * a / 3) b hb
  · intro m hdvd hle
    have hm0 : 0 ≤ m := le_trans (by positivity) hle
    lift m to ℕ using hm0 with c
    have hbc : b ∣ c := by exact_mod_cast hdvd
    have hkc : 8 * a / 3 ≤ c := by exact_mod_cast hle
    exact_mod_cast roundUpNat_min (8 * a / 3) b c hb hbc hkc

/-- Witness for C5 at `n_embd = 8`, `n_mult = 4`. -/
theorem c5_witness : (4 : Int) ∣ n_ff_val 8 4 ∧
    Int.tdiv (2 * (4 * 8)) 3 ≤ n_ff_val 8 4 := by
  have h := c5_n_ff_smallest_multiple 8 4 (by decide) (by decide)
  exact ⟨h.1, h.2.1⟩

/-! ## C4: the shard-count table and its out-of-table behaviour -/

/-- C4 (amended): the shard count follows the fixed table 4096 to 1,
5120 to 2, 6656 to 3, 8192 to 8; every other embedding dimension makes
`llama_n_parts` hit `unreachable!`, i.e. the process panics — it does not
raise a recoverable ConfigError. -/
theorem c4_n_parts_table :
    llama_n_parts 4096 = .ok 1 ∧ llama_n_parts 5120 = .ok 2 ∧
    llama_n_parts 6656 = .ok 3 ∧ llama_n_parts 8192 = .ok 8 ∧
    ∀ s : Int, s ≠ 4096 → s ≠ 5120 → s ≠ 6656 → s ≠ 8192 →
      llama_n_parts s = .panic := by
  refine ⟨by decide, by decide, by decide, by decide, ?_⟩
  intro s h1 h2 h3 h4
  simp [llama_n_parts, h1, h2, h3, h4]

/-- Witness for C4's amended theorem at the out-of-table size 4097. -/
theorem c4_witness : llama_n_parts 4097 = .panic :=
  c4_n_parts_table.2.2.2.2 4097 (by decide) (by decide) (by decide) (by decide)

/-- C4 counterexample: a 32-byte primary file with a good magic and
`n_embd = 4097` drives the loader into a panic (`Outcome.panic`), not into
a reportable ConfigError, and only after 32 bytes of file I/O (magic and
all seven hyperparameter reads) — against the claim that an out-of-table
embedding dimension raises a ConfigError before any file I/O. -/
theorem c4_counterexample :
    loadPrelude [108, 109, 103, 103, 1, 0, 0, 0, 1, 16, 0, 0, 1, 0, 0, 0,
                 1, 0, 0, 0, 1, 0, 0, 0, 1, 0, 0, 0, 0, 0, 0, 0] 256
      = (.panic, ⟨32, 0, 0, 0⟩) := by
  rfl

/-! ## C8: a wrong magic constant fails before any allocation -/

/-- C8: if the little-endian i32 decoded from the first four bytes of the
primary file differs from the expected signature `0x67676d6c`, the load
fails with the bad-magic FormatError after reading exactly those 4 bytes:
no vocabulary entry is stored, the arena is not initialized and no tensor
is allocated. -/
theorem c8_bad_magic_no_alloc (b0 b1 b2 b3 : Nat) (rest : List Nat)
    (n_ctx : Int) (h : leI32 b0 b1 b2 b3 ≠ 1734831468) :
    loadPrelude (b0 :: b1 :: b2 :: b3 :: rest) n_ctx
      = (.err .badMagic, ⟨4, 0, 0, 0⟩) := by
  simp [loadPrelude, readI32, h]

/-- Witness for C8 at the all-zero 4-byte file. -/
theorem c8_witness :
    loadPrelude [0, 0, 0, 0] 256 = (.err .badMagic, ⟨4, 0, 0, 0⟩) :=
  c8_bad_magic_no_alloc 0 0 0 0 [] 256 (by decide)

/-! ## C3: shard path construction -/

/-- C3 evaluation at the failing input: for part 1 the code builds the
path with `Path::join`, yielding `<primary>/.1` — a file named `.1` inside
a directory named like the primary file — and not the sibling suffix form
`<primary>.1` that the checkpoint format requires; part 0 opens the
primary path itself. -/
theorem c3_part_path_is_join :
    partPath "/data/Llama/LLaMA/7B/ggml-model-q4_0.bin" 1
      = "/data/Llama/LLaMA/7B/ggml-model-q4_0.bin/.1" ∧
    partPath "/data/Llama/LLaMA/7B/ggml-model-q4_0.bin" 1
      ≠ "/data/Llama/LLaMA/7B/ggml-model-q4_0.bin.1" ∧
    partPath "/data/Llama/LLaMA/7B/ggml-model-q4_0.bin" 0
      = "/data/Llama/LLaMA/7B/ggml-model-q4_0.bin" := by
  have h1 : natStr 1 = "1" := by
    rw [natStr, decChars]
    rfl
  refine ⟨?_, ?_, rfl⟩
  · rw [partPath, if_pos (by omega), joinPath, h1]
    rfl
  · rw [partPath, if_pos (by omega), joinPath, h1]
    decide

/-! ## C10: the fixed 2-element shape array versus declared dimensionality -/

lemma readI32_ne_panic (r : List Nat) : readI32 r ≠ .panic := by
  rcases r with _ | ⟨a, _ | ⟨b, _ | ⟨c, _ | ⟨d, t⟩⟩⟩⟩ <;> simp [readI32]

lemma readI32_of_len (r : List Nat) (h : 4 ≤ r.length) :
    ∃ v r', readI32 r = .ok (v, r') ∧ r'.length + 4 = r.length := by
  rcases r with _ | ⟨a, _ | ⟨b, _ | ⟨c, _ | ⟨d, t⟩⟩⟩⟩
  · simp at h
  · simp at h
  · simp at h
  · simp at h
  · exact ⟨leI32 a b c d, t, rfl, by simp⟩

lemma neLoop_no_panic_aux (n_dims : Int) (h2 : n_dims ≤ 2) :
    ∀ (f i : Nat) (r : List Nat) (ne : Int × Int) (nel : Int),
      (n_dims - i).toNat ≤ f → neLoop r n_dims i ne nel ≠ .panic := by
  intro f
  induction f with
  | zero =>
    intro i r ne nel hf
    rw [neLoop.eq_def, dif_neg (by omega : ¬ ((i : Nat) : Int) < n_dims)]
    simp
  | succ f ih =>
    intro i r ne nel hf
    rw [neLoop.eq_def]
    by_cases hlt : ((i : Nat) : Int) < n_dims
    · rw [dif_pos hlt]
      rcases hR : readI32 r with ⟨v, r'⟩ | e | _
      · show (if 2 ≤ i then Outcome.panic
            else neLoop r' n_dims (i + 1) (setNe ne i v) (nel * v))
            ≠ Outcome.panic
        rw [if_neg (by omega : ¬ 2 ≤ i)]
        exact ih (i + 1) r' _ _ (by omega)
      · show Outcome.err e ≠ Outcome.panic
        simp
      · exact absurd hR (readI32_ne_panic r)
    · rw [dif_neg hlt]
      simp

/-- C10 (amended): the shape-parsing loop over the fixed array
`[1i32, 1i32]` is total (never panics) for every declared dimensionality
`n_dims ≤ 2` — including `n_dims ≤ 0`, not just 1 and 2 — and for every
`n_dims ≥ 3`, provided at least three 4-byte shape values are available on
the stream, it indexes past the end of the array and panics instead of
returning any error of the documented taxonomy. -/
theorem c10_shape_array_bounds :
    (∀ (r : List Nat) (n_dims : Int) (i : Nat) (ne : Int × Int) (nel : Int),
      n_dims ≤ 2 → neLoop r n_dims i ne nel ≠ .panic) ∧
    (∀ (r : List Nat) (n_dims : Int), 3 ≤ n_dims → 12 ≤ r.length →
      neLoop r n_dims 0 (1, 1) 1 = .panic) := by
  constructor
  · intro r n_dims i ne nel h2
    exact neLoop_no_panic_aux n_dims h2 (n_dims - i).toNat i r ne nel le_rfl
  · intro r n_dims h3 hr
    obtain ⟨v0, r1, hR0, hl1⟩ := readI32_of_len r (by omega)
    obtain ⟨v1, r2, hR1, hl2⟩ := readI32_of_len r1 (by omega)
    obtain ⟨v2, r3, hR2, hl3⟩ := readI32_of_len r2 (by omega)
    rw [neLoop.eq_def, dif_pos (by omega : (((0 : Nat)) : Int) < n_dims), hR0]
    show (if 2 ≤ 0 then Outcome.panic
        else neLoop r1 n_dims (0 + 1) (setNe (1, 1) 0 v0) (1 * v0))
        = Outcome.panic
    rw [if_neg (by omega : ¬ 2 ≤ 0)]
    rw [neLoop.eq_def, dif_pos (by omega : (((0 + 1 : Nat)) : Int) < n_dims), hR1]
    show (if 2 ≤ 0 + 1 then Outcome.panic
        else neLoop r2 n_dims (0 + 1 + 1) (setNe (setNe (1, 1) 0 v0) (0 + 1) v1)
          (1 * v0 * v1)) = Outcome.panic
    rw [if_neg (by omega : ¬ 2 ≤ 0 + 1)]
    rw [neLoop.eq_def, dif_pos (by omega : (((0 + 1 + 1 : Nat)) : Int) < n_dims), hR2]
    show (if 2 ≤ 0 + 1 + 1 then Outcome.panic
        else neLoop r3 n_dims (0 + 1 + 1 + 1)
          (setNe (setNe (setNe (1, 1) 0 v0) (0 + 1) v1) (0 + 1 + 1) v2)
          (1 * v0 * v1 * v2)) = Outcome.panic
    rw [if_pos (by omega : 2 ≤ 0 + 1 + 1)]

/-- Witness for C10's amended theorem: no panic at `n_dims = 2` on an empty
stream; a panic at `n_dims = 3` on a 12-byte stream. -/
theorem c10_witness :
    neLoop [] 2 0 (1, 1) 1 ≠ .panic ∧
    neLoop [0, 0, 0, 0, 0, 0, 0, 0, 0, 0, 0, 0] 3 0 (1, 1) 1 = .panic :=
  ⟨c10_shape_array_bounds.1 [] 2 0 (1, 1) 1 (by omega),
   c10_shape_array_bounds.2 [0, 0, 0, 0, 0, 0, 0, 0, 0, 0, 0, 0] 3 (by omega)
     (by simp)⟩

/-- C10 counterexample to the claim as stated: record shape parsing is also
total for the declared dimensionality 0 (the loop body never runs and the
defaults `[1, 1]` are kept), so it is not total *only* for `n_dims` in
the set containing 1 and 2. -/
theorem c10_counterexample :
    neLoop [] 0 0 (1, 1) 1 = .ok ((1, 1), 1, []) ∧
    ¬ ((0 : Int) = 1 ∨ (0 : Int) = 2) := by
  constructor
  · rw [neLoop.eq_def, dif_neg (by omega : ¬ (((0 : Nat)) : Int) < 0)]
  · decide

/-! ## C6: element-count validation halts the record before any copy -/

/-- C6 (amended): whenever the record's declared element count differs from
the registry tensor's full element count (single-dimension records) or from
the full count divided by the shard count, truncated (multi-dimension
records), processing fails with the ShapeMismatch-class error for that
tensor; the error is returned before any write request is issued, so no
bytes of the record are copied.  (The same error can additionally arise
with matching counts, from the per-axis or byte-size validations — see the
counterexample.) -/
theorem c6_element_count_mismatch (t : GgmlTensor) (name : String)
    (n_dims : Int) (ne : Int × Int) (nel ftype part_id n_parts : Int)
    (h : if n_dims = 1 then t.nelements ≠ nel
         else Int.tdiv t.nelements n_parts ≠ nel) :
    processTensorRecord t name n_dims ne nel ftype part_id n_parts
      = .err (.wrongSize name) := by
  unfold processTensorRecord
  rw [if_pos h]

/-- Witness for C6: an off-by-one declared element count (5 instead of 4)
on a single-dimension record is rejected. -/
theorem c6_witness :
    processTensorRecord ⟨1, gF32, 4, 1⟩ "norm.weight" 1 (4, 1) 5 0 0 2
      = .err (.wrongSize "norm.weight") :=
  c6_element_count_mismatch ⟨1, gF32, 4, 1⟩ "norm.weight" 1 (4, 1) 5 0 0 2
    (by decide)

/-- C6 counterexample to the "exactly when" direction: a two-dimensional
record for a 4-by-6 tensor split in 2 parts declares the shape (2, 6),
whose element count 12 equals the full count 24 divided by the shard
count — yet processing still fails with the same ShapeMismatch-class error,
from the per-axis validation.  Failure is therefore not equivalent to an
element-count mismatch. -/
theorem c6_counterexample :
    processTensorRecord ⟨1, gF32, 4, 6⟩ "layers.0.attention.wq.weight" 2
        (2, 6) 12 0 0 2
      = .err (.wrongSize "layers.0.attention.wq.weight") ∧
    Int.tdiv (GgmlTensor.nelements ⟨1, gF32, 4, 6⟩) 2 = 12 := by
  constructor
  · decide
  · decide

/-! ## C7: unsplit records copy only on shard 0 -/

/-- C7: when a record has a single dimension or the model has a single
shard, every successful processing advances the stream by exactly the
tensor's full byte footprint; shard 0 issues the single write covering
bytes 0 to nbytes of the tensor, and every shard with a positive index
issues no write at all, leaving the tensor's bytes unchanged. -/
theorem c7_unsplit_shard0_only (t : GgmlTensor) (name : String)
    (n_dims : Int) (ne : Int × Int) (nel ftype part_id n_parts : Int)
    (ws : List (Int × Int)) (c : Int)
    (hbr : n_dims = 1 ∨ n_parts = 1)
    (h : processTensorRecord t name n_dims ne nel ftype part_id n_parts
          = .ok (ws, c)) :
    c = t.nbytes ∧ (part_id = 0 → ws = [(0, t.nbytes)]) ∧
    (part_id ≠ 0 → ws = [] ∧ ∀ dest src : List Int,
      applyWrites dest src ws = dest) := by
  unfold processTensorRecord at h
  simp only [if_pos hbr] at h
  repeat' split at h
  all_goals try exact Outcome.noConfusion h
  all_goals simp only [Outcome.ok.injEq, Prod.mk.injEq] at h
  all_goals obtain ⟨hw, hc⟩ := h
  all_goals subst hw
  all_goals subst hc
  all_goals rename_i hp
  all_goals first
  | exact ⟨rfl, fun _ => rfl, fun hne => absurd hp hne⟩
  | exact ⟨rfl, fun h0 => absurd h0 hp, fun _ => ⟨rfl, fun dest src => rfl⟩⟩

/-- Witness for C7: a single-dimension record processed by shard 0 of a
2-shard model copies the full 16 bytes at offset 0. -/
theorem c7_witness :
    (16 : Int) = GgmlTensor.nbytes ⟨1, gF32, 4, 1⟩ ∧
    ((0 : Int) = 0 → [((0 : Int), (16 : Int))]
      = [(0, GgmlTensor.nbytes ⟨1, gF32, 4, 1⟩)]) ∧
    ((0 : Int) ≠ 0 → [((0 : Int), (16 : Int))] = [] ∧
      ∀ dest src : List Int,
        applyWrites dest src [((0 : Int), (16 : Int))] = dest) := by
  have h := c7_unsplit_shard0_only ⟨1, gF32, 4, 1⟩ "norm.weight" 1 (4, 1) 4 0
    0 2 [(0, 16)] 16 (Or.inl rfl) (by decide)
  simpa using h

/-! ## C1 and C2: the two multi-shard copy strategies -/

lemma split0Writes_map (rs co len : Int) :
    ∀ (k : Nat) (i1 : Int), split0Writes rs co len k i1
      = (List.range k).map (fun r : Nat => ((i1 + (r : Int)) * rs + co, len)) := by
  intro k
  induction k with
  | zero => intro i1; rfl
  | succ k ih =>
    intro i1
    rw [split0Writes, List.range_succ_eq_map, ih (i1 + 1)]
    simp only [List.map_cons, List.map_map, Nat.cast_zero, add_zero,
      List.cons.injEq]
    refine ⟨trivial, List.map_congr_left ?_⟩
    intro r hr
    simp only [Function.comp_apply]
    push_cast
    ring_nf

lemma split1Writes_map (rs pid np1 : Int) :
    ∀ (k : Nat) (i1 : Int), split1Writes rs pid np1 k i1
      = (List.range k).map (fun r : Nat => ((i1 + (r : Int) + pid * np1) * rs, rs)) := by
  intro k
  induction k with
  | zero => intro i1; rfl
  | succ k ih =>
    intro i1
    rw [split1Writes, List.range_succ_eq_map, ih (i1 + 1)]
    simp only [List.map_cons, List.map_map, Nat.cast_zero, add_zero,
      List.cons.injEq]
    refine ⟨trivial, List.map_congr_left ?_⟩
    intro r hr
    simp only [Function.comp_apply]
    push_cast
    ring_nf

/-- C1 (amended): for a multi-dimensional record of the split-policy-0 name
class (the embedding table and the per-layer `attention.wo.weight` /
`feed_forward.w2.weight` tensors) in a multi-shard model, every successful
processing issues one strided write per destination row `r` in
`0..ne[1]` — of `row_size / shard_count` bytes at byte offset
`r * row_size + ((shard_index * declared_ne0) / block_size) * type_size` —
and the stream advances by the total of those lengths; the shard's bytes
are not written as one contiguous block. -/
theorem c1_row_class_strided_writes (t : GgmlTensor) (name : String)
    (n_dims : Int) (ne : Int × Int) (nel ftype part_id n_parts : Int)
    (ws : List (Int × Int)) (c : Int)
    (hd : n_dims ≠ 1) (hp : n_parts ≠ 1) (hst : split_type name = 0)
    (h : processTensorRecord t name n_dims ne nel ftype part_id n_parts
          = .ok (ws, c)) :
    ws = (List.range ne.2.toNat).map
      (fun r : Nat => ((r : Int) * t.rowSize
                  + Int.tdiv (part_id * ne.1) t.typ.blck * t.typ.tsize,
                 Int.tdiv t.rowSize n_parts)) ∧
    c = sumLens ws := by
  have hbr : ¬ (n_dims = 1 ∨ n_parts = 1) := by tauto
  have hrs : ¬ (t.rowSize ≠ t.nb1) := by
    simp [GgmlTensor.rowSize, GgmlTensor.nb1]
  unfold processTensorRecord at h
  simp only [if_neg hbr, if_pos hst, if_neg hrs] at h
  repeat' split at h
  all_goals try exact Outcome.noConfusion h
  all_goals simp only [Outcome.ok.injEq, Prod.mk.injEq] at h
  all_goals obtain ⟨hw, hc⟩ := h
  all_goals subst hw
  all_goals subst hc
  all_goals refine ⟨?_, rfl⟩
  all_goals rw [split0Writes_map]
  all_goals refine List.map_congr_left ?_
  all_goals intro r hr
  all_goals simp

/-- Witness for C1's amended theorem: shard 1 of 2 for an 8-by-2 F32
embedding table, record shape (4, 2): two strided 16-byte writes at
offsets 16 and 48, stream advanced by 32 bytes. -/
theorem c1_witness :
    [((16 : Int), (16 : Int)), (48, 16)] = (List.range ((2 : Int).toNat)).map
      (fun r : Nat => ((r : Int) * GgmlTensor.rowSize ⟨0, gF32, 8, 2⟩
                  + Int.tdiv ((1 : Int) * 4) gF32.blck * gF32.tsize,
                 Int.tdiv (GgmlTensor.rowSize ⟨0, gF32, 8, 2⟩) 2)) ∧
    (32 : Int) = sumLens [((16 : Int), (16 : Int)), (48, 16)] := by
  have h := c1_row_class_strided_writes ⟨0, gF32, 8, 2⟩ "tok_embeddings.weight"
    2 (4, 2) 8 0 1 2 [(16, 16), (48, 16)] 32
    (by decide) (by decide) (by decide) (by decide)
  simpa using h

/-- C1 counterexample to the claim as stated: on shard 1 of 2, an 8-by-2
F32 embedding-table record (declared shape (4, 2)) is reconstructed with
two 16-byte strided writes at byte offsets 16 and 48 — not with a single
contiguous write of the record's 32 bytes at the row offset 32. -/
theorem c1_counterexample :
    processTensorRecord ⟨0, gF32, 8, 2⟩ "tok_embeddings.weight" 2 (4, 2) 8 0 1 2
      = .ok ([(16, 16), (48, 16)], 32) ∧
    ([((16 : Int), (16 : Int)), (48, 16)]).length ≠ 1 ∧
    [((16 : Int), (16 : Int)), (48, 16)] ≠ [((32 : Int), (32 : Int))] := by
  refine ⟨by decide, by decide, by decide⟩

/-- C2 (amended): for every other multi-dimensional record (split policy 1)
in a multi-shard model, every successful processing copies one full row per
record row `r` in `0..ne[1]`: `row_size` bytes at byte offset
`(r + shard_index * ne[1]) * row_size`, so the shard's contribution lands
as the contiguous destination row block
`[shard_index * ne[1], (shard_index + 1) * ne[1])`, not as per-row column
slices of `row_size / shard_count` bytes. -/
theorem c2_column_class_full_rows (t : GgmlTensor) (name : String)
    (n_dims : Int) (ne : Int × Int) (nel ftype part_id n_parts : Int)
    (ws : List (Int × Int)) (c : Int)
    (hd : n_dims ≠ 1) (hp : n_parts ≠ 1) (hst : split_type name = 1)
    (h : processTensorRecord t name n_dims ne nel ftype part_id n_parts
          = .ok (ws, c)) :
    ws = (List.range ne.2.toNat).map
      (fun r : Nat => (((r : Int) + part_id * ne.2) * t.rowSize, t.rowSize)) ∧
    c = sumLens ws := by
  have hbr : ¬ (n_dims = 1 ∨ n_parts = 1) := by tauto
  have hs0 : ¬ split_type name = 0 := by rw [hst]; decide
  unfold processTensorRecord at h
  simp only [if_neg hbr, if_neg hs0] at h
  repeat' split at h
  all_goals try exact Outcome.noConfusion h
  all_goals simp only [Outcome.ok.injEq, Prod.mk.injEq] at h
  all_goals obtain ⟨hw, hc⟩ := h
  all_goals subst hw
  all_goals subst hc
  all_goals refine ⟨?_, rfl⟩
  all_goals rw [split1Writes_map]
  all_goals refine List.map_congr_left ?_
  all_goals intro r hr
  all_goals simp

/-- Witness for C2's amended theorem: shard 1 of 2 for a 4-by-4 F32 query
projection, record shape (4, 2): two full 16-byte row writes at offsets 32
and 48, stream advanced by 32 bytes. -/
theorem c2_witness :
    [((32 : Int), (16 : Int)), (48, 16)] = (List.range ((2 : Int).toNat)).map
      (fun r : Nat => (((r : Int) + 1 * 2) * GgmlTensor.rowSize ⟨0, gF32, 4, 4⟩,
                 GgmlTensor.rowSize ⟨0, gF32, 4, 4⟩)) ∧
    (32 : Int) = sumLens [((32 : Int), (16 : Int)), (48, 16)] := by
  have h := c2_column_class_full_rows ⟨0, gF32, 4, 4⟩
    "layers.0.attention.wq.weight" 2 (4, 2) 8 0 1 2 [(32, 16), (48, 16)] 32
    (by decide) (by decide) (by decide) (by decide)
  simpa using h

/-- C2 counterexample to the claim as stated: on shard 1 of 2, a 4-by-4 F32
`layers.0.attention.wq.weight` record (declared shape (4, 2)) is
reconstructed with two full-row 16-byte writes at byte offsets 32 and 48 —
not with per-row writes of `row_size / shard_count = 8` bytes at offsets
`r * row_size + shard_index * 8`. -/
theorem c2_counterexample :
    processTensorRecord ⟨0, gF32, 4, 4⟩ "layers.0.attention.wq.weight" 2
        (4, 2) 8 0 1 2
      = .ok ([(32, 16), (48, 16)], 32) ∧
    [((32 : Int), (16 : Int)), (48, 16)] ≠ [((8 : Int), (8 : Int)), (24, 8)] := by
  refine ⟨by decide, by decide⟩

/-! ## C9: the registry and the struct fields share storage.
The canonical names contain the decimal layer index, so the lookup proofs
need injectivity of the decimal rendering and disjointness of the
name families. -/

lemma digitCh_toNat (n : Nat) (h : n < 10) : (digitCh n).toNat = 48 + n := by
  interval_cases n <;> decide

lemma parseDec_append (l : List Char) (c : Char) :
    parseDec (l ++ [c]) = parseDec l * 10 + (c.toNat - 48) := by
  simp [parseDec, List.foldl_append]

lemma parseDec_decChars (n : Nat) : parseDec (decChars n) = n := by
  induction n using Nat.strong_induction_on with
  | _ n ih =>
    rw [decChars.eq_def]
    by_cases h : n < 10
    · rw [dif_pos h]
      simp [parseDec, digitCh_toNat n h]
    · rw [dif_neg h, parseDec_append,
        ih (n / 10) (Nat.div_lt_self (by omega) (by omega)),
        digitCh_toNat (n % 10) (Nat.mod_lt _ (by omega))]
      omega

lemma decChars_inj {m n : Nat} (h : decChars m = decChars n) : m = n := by
  have h2 := congrArg parseDec h
  rwa [parseDec_decChars, parseDec_decChars] at h2

lemma decChars_digit (n : Nat) :
    ∀ c ∈ decChars n, 48 ≤ c.toNat ∧ c.toNat ≤ 57 := by
  induction n using Nat.strong_induction_on with
  | _ n ih =>
    rw [decChars.eq_def]
    by_cases h : n < 10
    · rw [dif_pos h]
      intro c hc
      simp at hc
      subst hc
      rw [digitCh_toNat n h]
      omega
    · rw [dif_neg h]
      intro c hc
      rcases List.mem_append.mp hc with h1 | h1
      · exact ih (n / 10) (Nat.div_lt_self (by omega) (by omega)) c h1
      · simp at h1
        subst h1
        rw [digitCh_toNat (n % 10) (Nat.mod_lt _ (by omega))]
        omega

lemma digits_dot_cancel : ∀ (a b u v : List Char),
    (∀ c ∈ a, 48 ≤ c.toNat ∧ c.toNat ≤ 57) →
    (∀ c ∈ b, 48 ≤ c.toNat ∧ c.toNat ≤ 57) →
    a ++ '.' :: u = b ++ '.' :: v → a = b := by
  intro a
  induction a with
  | nil =>
    intro b u v _ hb h
    cases b with
    | nil => rfl
    | cons x xs =>
      injection h with h1 h2
      have hx := hb x (by simp)
      rw [← h1] at hx
      exact absurd hx (by decide)
  | cons x xs ih =>
    intro b u v ha hb h
    cases b with
    | nil =>
      injection h with h1 h2
      have hx := ha x (by simp)
      rw [h1] at hx
      exact absurd hx (by decide)
    | cons y ys =>
      injection h with h1 h2
      rw [h1, ih ys u v (fun c hc => ha c (by simp [hc]))
        (fun c hc => hb c (by simp [hc])) h2]

lemma layerName_data (i : Nat) (s : String) :
    (layerName i s).data
      = 'l' :: 'a' :: 'y' :: 'e' :: 'r' :: 's' :: '.' :: (decChars i ++ s.data) := rfl

lemma layerName_head (i : Nat) (s : String) :
    (layerName i s).data.head? = some 'l' := by
  rw [layerName_data]
  rfl

lemma layerName_inj_idx {i j : Nat} {s t : String}
    (hs : s.data.head? = some '.') (ht : t.data.head? = some '.')
    (h : layerName i s = layerName j t) : i = j := by
  have hd := congrArg String.data h
  rw [layerName_data, layerName_data] at hd
  simp only [List.cons.injEq, true_and] at hd
  obtain ⟨su, hsu⟩ : ∃ su, s.data = '.' :: su := by
    cases hsd : s.data with
    | nil => rw [hsd] at hs; exact absurd hs (by simp)
    | cons c cs =>
      rw [hsd] at hs
      simp at hs
      exact ⟨cs, by rw [hs]⟩
  obtain ⟨tv, htv⟩ : ∃ tv, t.data = '.' :: tv := by
    cases htd : t.data with
    | nil => rw [htd] at ht; exact absurd ht (by simp)
    | cons c cs =>
      rw [htd] at ht
      simp at ht
      exact ⟨cs, by rw [ht]⟩
  rw [hsu, htv] at hd
  exact decChars_inj
    (digits_dot_cancel _ _ _ _ (decChars_digit i) (decChars_digit j) hd)

lemma layerName_sfx_ne (i : Nat) {s t : String} (h : s ≠ t) :
    layerName i s ≠ layerName i t := by
  intro he
  apply h
  have hd := congrArg String.data he
  rw [layerName_data, layerName_data] at hd
  simp only [List.cons.injEq, true_and] at hd
  exact String.ext (List.append_cancel_left hd)

lemma layerName_ne_global (i : Nat) (s g : String)
    (hg : g.data.head? ≠ some 'l') : layerName i s ≠ g := by
  intro h
  have h0 : (layerName i s).data.head? = g.data.head? :=
    congrArg (fun z : String => z.data.head?) h
  rw [layerName_head] at h0
  exact hg h0.symm

lemma lookup_skip {β : Type} (a k : String) (v : β) (es : List (String × β))
    (h : a ≠ k) : List.lookup a ((k, v) :: es) = List.lookup a es := by
  simp [List.lookup, beq_eq_false_iff_ne.mpr h]

lemma lookup_hit {β : Type} (a : String) (v : β) (es : List (String × β)) :
    List.lookup a ((a, v) :: es) = some v := by
  simp [List.lookup]

lemma lookup_append_none {β : Type} (a : String) (l1 l2 : List (String × β))
    (h : List.lookup a l1 = none) :
    List.lookup a (l1 ++ l2) = List.lookup a l2 := by
  induction l1 with
  | nil => rfl
  | cons p l ih =>
    obtain ⟨k, v⟩ := p
    by_cases hk : a = k
    · subst hk
      rw [lookup_hit] at h
      exact Option.noConfusion h
    · rw [lookup_skip _ _ _ _ hk] at h
      rw [List.cons_append, lookup_skip _ _ _ _ hk]
      exact ih h

lemma lookup_append_some {β : Type} (a : String) (l1 l2 : List (String × β))
    (v : β) (h : List.lookup a l1 = some v) :
    List.lookup a (l1 ++ l2) = some v := by
  induction l1 with
  | nil => exact Option.noConfusion h
  | cons p l ih =>
    obtain ⟨k, w⟩ := p
    by_cases hk : a = k
    · subst hk
      rw [lookup_hit] at h
      rw [List.cons_append, lookup_hit]
      exact h
    · rw [lookup_skip _ _ _ _ hk] at h
      rw [List.cons_append, lookup_skip _ _ _ _ hk]
      exact ih h

lemma layerLookup_anorm (i : Nat) (l : LlamaLayerH) :
    List.lookup (layerName i ".attention_norm.weight") (layerEntries i l)
      = some l.attention_norm := by
  simp only [layerEntries]
  rw [lookup_hit]
  rfl

lemma layerLookup_wq (i : Nat) (l : LlamaLayerH) :
    List.lookup (layerName i ".attention.wq.weight") (layerEntries i l)
      = some l.wq := by
  simp only [layerEntries]
  rw [lookup_skip _ _ _ _ (layerName_sfx_ne i (by decide)), lookup_hit]
  rfl

lemma layerLookup_wk (i : Nat) (l : LlamaLayerH) :
    List.lookup (layerName i ".attention.wk.weight") (layerEntries i l)
      = some l.wk := by
  simp only [layerEntries]
  rw [lookup_skip _ _ _ _ (layerName_sfx_ne i (by decide)),
    lookup_skip _ _ _ _ (layerName_sfx_ne i (by decide)), lookup_hit]
  rfl

lemma layerLookup_wv (i : Nat) (l : LlamaLayerH) :
    List.lookup (layerName i ".attention.wv.weight") (layerEntries i l)
      = some l.wv := by
  simp only [layerEntries]
  rw [lookup_skip _ _ _ _ (layerName_sfx_ne i (by decide)),
    lookup_skip _ _ _ _ (layerName_sfx_ne i (by decide)),
    lookup_skip _ _ _ _ (layerName_sfx_ne i (by decide)), lookup_hit]
  rfl

lemma layerLookup_wo (i : Nat) (l : LlamaLayerH) :
    List.lookup (layerName i ".attention.wo.weight") (layerEntries i l)
      = some l.wo := by
  simp only [layerEntries]
  rw [lookup_skip _ _ _ _ (layerName_sfx_ne i (by decide)),
    lookup_skip _ _ _ _ (layerName_sfx_ne i (by decide)),
    lookup_skip _ _ _ _ (layerName_sfx_ne i (by decide)),
    lookup_skip _ _ _ _ (layerName_sfx_ne i (by decide)), lookup_hit]
  rfl

lemma layerLookup_fnorm (i : Nat) (l : LlamaLayerH) :
    List.lookup (layerName i ".ffn_norm.weight") (layerEntries i l)
      = some l.ffn_norm := by
  simp only [layerEntries]
  rw [lookup_skip _ _ _ _ (layerName_sfx_ne i (by decide)),
    lookup_skip _ _ _ _ (layerName_sfx_ne i (by decide)),
    lookup_skip _ _ _ _ (layerName_sfx_ne i (by decide)),
    lookup_skip _ _ _ _ (layerName_sfx_ne i (by decide)),
    lookup_skip _ _ _ _ (layerName_sfx_ne i (by decide)), lookup_hit]
  rfl

lemma layerLookup_w1 (i : Nat) (l : LlamaLayerH) :
    List.lookup (layerName i ".feed_forward.w1.weight") (layerEntries i l)
      = some l.w1 := by
  simp only [layerEntries]
  rw [lookup_skip _ _ _ _ (layerName_sfx_ne i (by decide)),
    lookup_skip _ _ _ _ (layerName_sfx_ne i (by decide)),
    lookup_skip _ _ _ _ (layerName_sfx_ne i (by decide)),
    lookup_skip _ _ _ _ (layerName_sfx_ne i (by decide)),
    lookup_skip _ _ _ _ (layerName_sfx_ne i (by decide)),
    lookup_skip _ _ _ _ (layerName_sfx_ne i (by decide)), lookup_hit]
  rfl

lemma layerLookup_w2 (i : Nat) (l : LlamaLayerH) :
    List.lookup (layerName i ".feed_forward.w2.weight") (layerEntries i l)
      = some l.w2 := by
  simp only [layerEntries]
  rw [lookup_skip _ _ _ _ (layerName_sfx_ne i (by decide)),
    lookup_skip _ _ _ _ (layerName_sfx_ne i (by decide)),
    lookup_skip _ _ _ _ (layerName_sfx_ne i (by decide)),
    lookup_skip _ _ _ _ (layerName_sfx_ne i (by decide)),
    lookup_skip _ _ _ _ (layerName_sfx_ne i (by decide)),
    lookup_skip _ _ _ _ (layerName_sfx_ne i (by decide)),
    lookup_skip _ _ _ _ (layerName_sfx_ne i (by decide)), lookup_hit]
  rfl

lemma layerLookup_w3 (i : Nat) (l : LlamaLayerH) :
    List.lookup (layerName i ".feed_forward.w3.weight") (layerEntries i l)
      = some l.w3 := by
  simp only [layerEntries]
  rw [lookup_skip _ _ _ _ (layerName_sfx_ne i (by decide)),
    lookup_skip _ _ _ _ (layerName_sfx_ne i (by decide)),
    lookup_skip _ _ _ _ (layerName_sfx_ne i (by decide)),
    lookup_skip _ _ _ _ (layerName_sfx_ne i (by decide)),
    lookup_skip _ _ _ _ (layerName_sfx_ne i (by decide)),
    lookup_skip _ _ _ _ (layerName_sfx_ne i (by decide)),
    lookup_skip _ _ _ _ (layerName_sfx_ne i (by decide)),
    lookup_skip _ _ _ _ (layerName_sfx_ne i (by decide)), lookup_hit]
  rfl

lemma layerEntries_miss (i j : Nat) (hij : j ≠ i) (s : String)
    (hs : s.data.head? = some '.') (l : LlamaLayerH) :
    List.lookup (layerName j s) (layerEntries i l) = none := by
  have hne : ∀ t : String, t.data.head? = some '.' →
      layerName j s ≠ layerName i t :=
    fun t ht he => hij (layerName_inj_idx hs ht he)
  simp only [layerEntries]
  rw [lookup_skip _ _ _ _ (hne _ (by rfl)),
    lookup_skip _ _ _ _ (hne _ (by rfl)),
    lookup_skip _ _ _ _ (hne _ (by rfl)),
    lookup_skip _ _ _ _ (hne _ (by rfl)),
    lookup_skip _ _ _ _ (hne _ (by rfl)),
    lookup_skip _ _ _ _ (hne _ (by rfl)),
    lookup_skip _ _ _ _ (hne _ (by rfl)),
    lookup_skip _ _ _ _ (hne _ (by rfl)),
    lookup_skip _ _ _ _ (hne _ (by rfl))]
  rfl

lemma buildLayers_get (wt : GType) (a f : Int) :
    ∀ (count i base j : Nat), j < count →
      ((buildLayers wt a f i count base).1)[j]?
        = some (mkLayer wt a f (base + 9 * j)) := by
  intro count
  induction count with
  | zero => intro i base j h; exact absurd h (by omega)
  | succ c ih =>
    intro i base j h
    cases j with
    | zero => simp [buildLayers]
    | succ j' =>
      have harith : base + 9 + 9 * j' = base + 9 * (j' + 1) := by ring
      have h2 := ih (i + 1) (base + 9) j' (by omega)
      rw [harith] at h2
      simpa [buildLayers] using h2

lemma buildLayers_lookup (wt : GType) (a f : Int) (s : String)
    (hs : s.data.head? = some '.') (pick : LlamaLayerH → GgmlTensor)
    (hpick : ∀ (i : Nat) (l : LlamaLayerH),
      List.lookup (layerName i s) (layerEntries i l) = some (pick l)) :
    ∀ (count i0 base j : Nat), i0 ≤ j → j < i0 + count →
      List.lookup (layerName j s) ((buildLayers wt a f i0 count base).2)
        = some (pick (mkLayer wt a f (base + 9 * (j - i0)))) := by
  intro count
  induction count with
  | zero => intro i0 base j h1 h2; exact absurd h2 (by omega)
  | succ c ih =>
    intro i0 base j h1 h2
    by_cases hj : j = i0
    · subst hj
      simp only [buildLayers]
      rw [lookup_append_some _ _ _ _ (hpick j _)]
      norm_num
    · simp only [buildLayers]
      rw [lookup_append_none _ _ _ (layerEntries_miss i0 j hj s hs _),
        ih (i0 + 1) (base + 9) j (by omega) (by omega)]
      have harith : base + 9 + 9 * (j - (i0 + 1)) = base + 9 * (j - i0) := by
        omega
      rw [harith]

lemma buildModel_tensors (wt : GType) (a f v nl nc : Int) :
    (buildModel wt a f v nl nc).tensors
      = [("tok_embeddings.weight", (⟨0, wt, a, v⟩ : GgmlTensor)),
         ("norm.weight", (⟨1, gF32, a, 1⟩ : GgmlTensor)),
         ("output.weight", (⟨2, wt, a, v⟩ : GgmlTensor))]
        ++ (buildLayers wt a f 0 nl.toNat 3).2 := rfl

lemma buildModel_layers (wt : GType) (a f v nl nc : Int) :
    (buildModel wt a f v nl nc).layers = (buildLayers wt a f 0 nl.toNat 3).1 := rfl

lemma c9_layer_lookup_full (wt : GType) (a f v nl nc : Int) (i : Nat)
    (hi : i < nl.toNat) (s : String) (hs : s.data.head? = some '.')
    (pick : LlamaLayerH → GgmlTensor)
    (hpick : ∀ (j : Nat) (l : LlamaLayerH),
      List.lookup (layerName j s) (layerEntries j l) = some (pick l)) :
    List.lookup (layerName i s) ((buildModel wt a f v nl nc).tensors)
      = some (pick (mkLayer wt a f (3 + 9 * i))) := by
  rw [buildModel_tensors]
  rw [List.cons_append,
    lookup_skip _ _ _ _ (layerName_ne_global i _ _ (by decide)),
    List.cons_append,
    lookup_skip _ _ _ _ (layerName_ne_global i _ _ (by decide)),
    List.cons_append,
    lookup_skip _ _ _ _ (layerName_ne_global i _ _ (by decide)),
    List.nil_append]
  have h := buildLayers_lookup wt a f s hs pick hpick nl.toNat 0 3 i
    (by omega) (by omega)
  simpa using h

/-- C9: in the constructed model, the handle stored in each struct field and
the handle stored in the registry under the corresponding canonical name are
the very same tensor handle (the registry receives a `share()` of the struct
field, which designates the identical underlying storage): this holds for
`tok_embeddings`, `norm` and `output`, and for all nine per-layer weights of
every layer index below the layer count. -/
theorem c9_registry_shares_struct_storage (wtype : GType)
    (n_embd n_ffv n_vocab n_layer n_ctx : Int) :
    List.lookup "tok_embeddings.weight"
        (buildModel wtype n_embd n_ffv n_vocab n_layer n_ctx).tensors
      = some (buildModel wtype n_embd n_ffv n_vocab n_layer n_ctx).tok_embeddings ∧
    List.lookup "norm.weight"
        (buildModel wtype n_embd n_ffv n_vocab n_layer n_ctx).tensors
      = some (buildModel wtype n_embd n_ffv n_vocab n_layer n_ctx).norm ∧
    List.lookup "output.weight"
        (buildModel wtype n_embd n_ffv n_vocab n_layer n_ctx).tensors
      = some (buildModel wtype n_embd n_ffv n_vocab n_layer n_ctx).output ∧
    ∀ i : Nat, i < n_layer.toNat →
      ∃ l : LlamaLayerH,
        (buildModel wtype n_embd n_ffv n_vocab n_layer n_ctx).layers[i]? = some l ∧
        List.lookup (layerName i ".attention_norm.weight")
          (buildModel wtype n_embd n_ffv n_vocab n_layer n_ctx).tensors
          = some l.attention_norm ∧
        List.lookup (layerName i ".attention.wq.weight")
          (buildModel wtype n_embd n_ffv n_vocab n_layer n_ctx).tensors
          = some l.wq ∧
        List.lookup (layerName i ".attention.wk.weight")
          (buildModel wtype n_embd n_ffv n_vocab n_layer n_ctx).tensors
          = some l.wk ∧
        List.lookup (layerName i ".attention.wv.weight")
          (buildModel wtype n_embd n_ffv n_vocab n_layer n_ctx).tensors
          = some l.wv ∧
        List.lookup (layerName i ".attention.wo.weight")
          (buildModel wtype n_embd n_ffv n_vocab n_layer n_ctx).tensors
          = some l.wo ∧
        List.lookup (layerName i ".ffn_norm.weight")
          (buildModel wtype n_embd n_ffv n_vocab n_layer n_ctx).tensors
          = some l.ffn_norm ∧
        List.lookup (layerName i ".feed_forward.w1.weight")
          (buildModel wtype n_embd n_ffv n_vocab n_layer n_ctx).tensors
          = some l.w1 ∧
        List.lookup (layerName i ".feed_forward.w2.weight")
          (buildModel wtype n_embd n_ffv n_vocab n_layer n_ctx).tensors
          = some l.w2 ∧
        List.lookup (layerName i ".feed_forward.w3.weight")
          (buildModel wtype n_embd n_ffv n_vocab n_layer n_ctx).tensors
          = some l.w3 := by
  refine ⟨?_, ?_, ?_, ?_⟩
  · rw [buildModel_tensors, List.cons_append, lookup_hit]
    rfl
  · rw [buildModel_tensors, List.cons_append,
      lookup_skip _ _ _ _ (by decide), List.cons_append, lookup_hit]
    rfl
  · rw [buildModel_tensors, List.cons_append,
      lookup_skip _ _ _ _ (by decide), List.cons_append,
      lookup_skip _ _ _ _ (by decide), List.cons_append, lookup_hit]
    rfl
  · intro i hi
    refine ⟨mkLayer wtype n_embd n_ffv (3 + 9 * i), ?_, ?_, ?_, ?_, ?_, ?_, ?_,
      ?_, ?_, ?_⟩
    · rw [buildModel_layers]
      exact buildLayers_get wtype n_embd n_ffv n_layer.toNat 0 3 i hi
    · exact c9_layer_lookup_full wtype n_embd n_ffv n_vocab n_layer n_ctx i hi
        ".attention_norm.weight" rfl (fun l => l.attention_norm) layerLookup_anorm
    · exact c9_layer_lookup_full wtype n_embd n_ffv n_vocab n_layer n_ctx i hi
        ".attention.wq.weight" rfl (fun l => l.wq) layerLookup_wq
    · exact c9_layer_lookup_full wtype n_embd n_ffv n_vocab n_layer n_ctx i hi
        ".attention.wk.weight" rfl (fun l => l.wk) layerLookup_wk
    · exact c9_layer_lookup_full wtype n_embd n_ffv n_vocab n_layer n_ctx i hi
        ".attention.wv.weight" rfl (fun l => l.wv) layerLookup_wv
    · exact c9_layer_lookup_full wtype n_embd n_ffv n_vocab n_layer n_ctx i hi
        ".attention.wo.weight" rfl (fun l => l.wo) layerLookup_wo
    · exact c9_layer_lookup_full wtype n_embd n_ffv n_vocab n_layer n_ctx i hi
        ".ffn_norm.weight" rfl (fun l => l.ffn_norm) layerLookup_fnorm
    · exact c9_layer_lookup_full wtype n_embd n_ffv n_vocab n_layer n_ctx i hi
        ".feed_forward.w1.weight" rfl (fun l => l.w1) layerLookup_w1
    · exact c9_layer_lookup_full wtype n_embd n_ffv n_vocab n_layer n_ctx i hi
        ".feed_forward.w2.weight" rfl (fun l => l.w2) layerLookup_w2
    · exact c9_layer_lookup_full wtype n_embd n_ffv n_vocab n_layer n_ctx i hi
        ".feed_forward.w3.weight" rfl (fun l => l.w3) layerLookup_w3

/-- Witness for C9 at a 2-layer model: the registry entry for layer 1's
query projection is the very handle (storage id 13) held by the layer
struct. -/
theorem c9_witness :
    List.lookup (layerName 1 ".attention.wq.weight")
      (buildModel gF32 4 8 6 2 16).tensors = some ⟨13, gF32, 4, 4⟩ := by
  obtain ⟨l, hl, _, h2, _⟩ :=
    (c9_registry_shares_struct_storage gF32 4 8 6 2 16).2.2.2 1 (by decide)
  have hl' : (buildModel gF32 4 8 6 2 16).layers[1]?
      = some (mkLayer gF32 4 8 12) := by decide
  rw [hl] at hl'
  injection hl' with hleq
  rw [hleq] at h2
  rw [h2]
  decide

end LlamaRs
